import Mathlib

/-!
Verification of `src/Tools/SidTool/UwpSharedObjectPathTool.cpp` — a 36-line
utility whose `main` prompts, reads a container name from `wcin`, calls
`DeriveAppContainerSidFromAppContainerName`, `ConvertSidToStringSidA`,
`FreeSid`, and prints `SID: ` followed by the string.

The host identity subsystem (the two Windows API calls) is modelled as a
parameter `Host` of deterministic functions returning `Option` results; the
program itself is embedded as a list of instructions, one per source
statement, run by a small interpreter that records an event trace, resource
counters for the SID handle and the converted string buffer, and an ambient
global state that mirrors the process's static storage (the source declares
no globals, so no instruction touches it).
-/

namespace SidTool

/-- Error taxonomy of spec §4.1. The source has no error type; this is used
only by the spec-modelled conforming resolver below. -/
inductive ErrorKind
  | invalidName
  | conversionFailure
  | systemUnavailable
deriving DecidableEq

/-- The host identity subsystem: the two capabilities the program consumes.
`derive` models `DeriveAppContainerSidFromAppContainerName` (a SID handle on
success), `convert` models `ConvertSidToStringSidA` (the canonical textual
form on success). Both are functions, reflecting spec §4.1's stipulation that
derivation is a pure, deterministic lookup. -/
structure Host where
  derive : String → Option Nat
  convert : Nat → Option String

/-- Whitespace characters recognised by `std::wcin >>` extraction under the
default locale. -/
def isWS (c : Char) : Bool :=
  c = ' ' || c = '\t' || c = '\n' || c = '\r' || c = '\x0b' || c = '\x0c'

/-- `wcin >> containerName` (line 23): skip leading whitespace, then take
characters up to the next whitespace. On a stream holding only whitespace the
extraction fails and the string is left empty, which this definition also
returns. -/
def firstToken (input : String) : String :=
  String.mk (((input.toList).dropWhile isWS).takeWhile (fun c => !isWS c))

/-- The text of the first input line (up to the first newline): what the
program would read if it used `getline` instead of `>>`. -/
def firstLine (input : String) : String :=
  String.mk ((input.toList).takeWhile (fun c => c ≠ '\n'))

/-- The prompt written by line 21 of the source. -/
def promptText : String :=
  "You can find SID for your UWP app in the Partner Center. If it is not yet published or you are going to use MSIX for deployment from website, FTP or shared folder, please enter your app container name. For UWP apps it is the same string as PFN (Package Family Name):\n\n"

/-- Placeholder for what `wcout << stringSid` produces when `stringSid` was
never assigned: after a failed derivation or conversion the source prints an
uninitialised `LPSTR`, which is undefined behaviour; the model prints this
distinguished indeterminate chunk instead. -/
def indeterminateText : String := "<indeterminate>"

/-- Observable events of one execution, in program order. -/
inductive Event
  | writeOut (s : String)
  | readIn (tok : String)
  | deriveCall (name : String) (ok : Bool)
  | convertCall (ok : Bool)
  | freeSidCall
  | freeStringCall
deriving DecidableEq

/-- The local variables of `main` that carry data (lines 11–15). `none`
means the variable has not been assigned a valid value (uninitialised, or
left untouched by a failed call). -/
structure Locals where
  containerName : String
  sid : Option Nat
  stringSid : Option String
deriving DecidableEq

/-- Resource accounting: live count and number of release operations for the
SID handle and for the string buffer allocated by the conversion call. -/
structure Resources where
  sidLive : Nat
  sidFrees : Nat
  strLive : Nat
  strFrees : Nat
deriving DecidableEq

/-- Interpreter state: locals, resources, the ambient global/process state
(the source declares no globals, so no instruction reads or writes it), and
the event trace so far. -/
structure St where
  loc : Locals
  res : Resources
  glob : Nat
  trace : List Event
deriving DecidableEq

/-- One instruction per executable statement of `main` (source lines 21,
23, 25, 27, 29, 31, 33, 35). -/
inductive Instr
  | writePrompt
  | readName
  | deriveSid
  | convertSid
  | freeSidOp
  | writeLabel
  | writeStringSid
  | writeNewline
deriving DecidableEq

/-- Small-step semantics of one statement, given the host subsystem and the
full stdin contents. Each branch mirrors the corresponding source line:
results of the two host calls are stored but their status is never
inspected, `FreeSid` runs unconditionally, and nothing touches `glob`. -/
def step (host : Host) (input : String) (s : St) : Instr → St
  | Instr.writePrompt =>
      { s with trace := s.trace ++ [Event.writeOut promptText] }
  | Instr.readName =>
      { s with
        loc := { s.loc with containerName := firstToken input },
        trace := s.trace ++ [Event.readIn (firstToken input)] }
  | Instr.deriveSid =>
      { s with
        loc := { s.loc with sid := host.derive s.loc.containerName },
        res := { s.res with
                 sidLive := s.res.sidLive +
                   cond (host.derive s.loc.containerName).isSome 1 0 },
        trace := s.trace ++
          [Event.deriveCall s.loc.containerName
            (host.derive s.loc.containerName).isSome] }
  | Instr.convertSid =>
      { s with
        loc := { s.loc with stringSid := s.loc.sid.bind host.convert },
        res := { s.res with
                 strLive := s.res.strLive +
                   cond (s.loc.sid.bind host.convert).isSome 1 0 },
        trace := s.trace ++
          [Event.convertCall (s.loc.sid.bind host.convert).isSome] }
  | Instr.freeSidOp =>
      { s with
        res := { s.res with
                 sidLive := s.res.sidLive - 1,
                 sidFrees := s.res.sidFrees + 1 },
        trace := s.trace ++ [Event.freeSidCall] }
  | Instr.writeLabel =>
      { s with trace := s.trace ++ [Event.writeOut "SID: "] }
  | Instr.writeStringSid =>
      { s with trace := s.trace ++
          [Event.writeOut (s.loc.stringSid.getD indeterminateText)] }
  | Instr.writeNewline =>
      { s with trace := s.trace ++ [Event.writeOut "\n"] }

/-- The body of `main`, statement by statement in source order. -/
def program : List Instr :=
  [Instr.writePrompt, Instr.readName, Instr.deriveSid, Instr.convertSid,
   Instr.freeSidOp, Instr.writeLabel, Instr.writeStringSid,
   Instr.writeNewline]

/-- Initial state: all locals uninitialised, no resources, ambient global
state `g`. -/
def initSt (g : Nat) : St :=
  { loc := { containerName := "", sid := none, stringSid := none },
    res := { sidLive := 0, sidFrees := 0, strLive := 0, strFrees := 0 },
    glob := g,
    trace := [] }

/-- Result of one process execution: the final interpreter state and the
process exit status. `main` ends without a `return` statement, so the C++
exit status is 0. -/
structure RunResult where
  st : St
  exitCode : Nat
deriving DecidableEq

/-- One full execution of `main` for a given host subsystem, stdin contents
and ambient global state. -/
def mainRun (host : Host) (input : String) (g : Nat) : RunResult :=
  { st := List.foldl (step host input) (initSt g) program, exitCode := 0 }

/-- Concatenation of everything written to `wcout`, in order. -/
def outputOf : List Event → String
  | [] => ""
  | Event.writeOut s :: t => s ++ outputOf t
  | _ :: t => outputOf t

/-- The events that occur strictly after the `FreeSid` call. -/
def afterFree : List Event → List Event
  | [] => []
  | Event.freeSidCall :: t => t
  | _ :: t => afterFree t

/-- The name argument passed to the derivation call, if any. -/
def derivedName : List Event → Option String
  | [] => none
  | Event.deriveCall n _ :: _ => some n
  | _ :: t => derivedName t

/-- Whether an event is a resource release. -/
def isFree : Event → Bool
  | Event.freeSidCall => true
  | Event.freeStringCall => true
  | _ => false

/-- Number of newline characters in a string. -/
def newlineCount (s : String) : Nat :=
  (s.toList.filter (fun c => c = '\n')).length

/-- Kinds of events, for statements about control flow that ignore the data
carried by each call. -/
inductive EKind
  | kWrite
  | kRead
  | kDerive
  | kConvert
  | kFreeSid
  | kFreeString
deriving DecidableEq

/-- The kind of an event. -/
def kindOf : Event → EKind
  | Event.writeOut _ => EKind.kWrite
  | Event.readIn _ => EKind.kRead
  | Event.deriveCall _ _ => EKind.kDerive
  | Event.convertCall _ => EKind.kConvert
  | Event.freeSidCall => EKind.kFreeSid
  | Event.freeStringCall => EKind.kFreeString

/-- Modelled from the spec: the conforming resolver contract of §4.1 with
its ErrorKind result, which is absent from the source (the source never
inspects the host calls' statuses). Derivation failure is InvalidName,
conversion failure after a successful derivation is ConversionFailure, and
on success the canonical text is returned. -/
def resolve (host : Host) (name : String) : Except ErrorKind String :=
  match host.derive name with
  | none => Except.error ErrorKind.invalidName
  | some h =>
    match host.convert h with
    | none => Except.error ErrorKind.conversionFailure
    | some t => Except.ok t

/-- Whether the first list is an initial segment of the second. -/
def listIsHead : List Char → List Char → Bool
  | [], _ => true
  | _ :: _, [] => false
  | a :: as, b :: bs => (a == b) && listIsHead as bs

/-- Whether the string p is an initial segment of the string t. -/
def strHead (p t : String) : Bool :=
  listIsHead p.toList t.toList

/-- Spec §8's platform guarantee about the canonical textual form: every
string produced by the conversion capability starts with the canonical
security-identifier string head and contains no line terminator. -/
def Host.canonical (host : Host) : Prop :=
  ∀ h t, host.convert h = some t →
    strHead "S-1-" t = true ∧ ('\n' : Char) ∉ t.toList

/-- A stub host for concrete evaluation: rejects the empty name, derives a
handle from any other name, and converts every handle to a fixed canonical
SID text. -/
def hostOk : Host :=
  { derive := fun n => if n = "" then none else some n.length,
    convert := fun _ => some "S-1-15-2-1" }

/-- A stub host on which every derivation and every conversion fails. -/
def hostFailing : Host :=
  { derive := fun _ => none, convert := fun _ => none }

theorem toList_append (a b : String) : (a ++ b).toList = a.toList ++ b.toList := by
  obtain ⟨x⟩ := a
  obtain ⟨y⟩ := b
  rfl

theorem append_empty_right (s : String) : s ++ "" = s := by
  obtain ⟨x⟩ := s
  show String.mk (x ++ []) = String.mk x
  rw [List.append_nil]

theorem newlineCount_sid_line (t : String) (hnl : ('\n' : Char) ∉ t.toList) :
    newlineCount ("SID: " ++ (t ++ "\n")) = 1 := by
  simp [newlineCount, toList_append, List.filter_append]
  intro a ha he
  exact hnl (he ▸ ha)

theorem mainRun_trace (host : Host) (input : String) (g : Nat) :
    (mainRun host input g).st.trace =
    [Event.writeOut promptText,
     Event.readIn (firstToken input),
     Event.deriveCall (firstToken input) (host.derive (firstToken input)).isSome,
     Event.convertCall ((host.derive (firstToken input)).bind host.convert).isSome,
     Event.freeSidCall,
     Event.writeOut "SID: ",
     Event.writeOut (((host.derive (firstToken input)).bind host.convert).getD indeterminateText),
     Event.writeOut "\n"] := by
  cases hd : host.derive (firstToken input) with
  | none => simp [mainRun, program, step, initSt, hd]
  | some s =>
    cases hc : host.convert s with
    | none => simp [mainRun, program, step, initSt, hd, hc]
    | some t => simp [mainRun, program, step, initSt, hd, hc]

theorem mainRun_res (host : Host) (input : String) (g : Nat) :
    (mainRun host input g).st.res =
    { sidLive := 0, sidFrees := 1,
      strLive := cond ((host.derive (firstToken input)).bind host.convert).isSome 1 0,
      strFrees := 0 } := by
  cases hd : host.derive (firstToken input) with
  | none => simp [mainRun, program, step, initSt, hd]
  | some s =>
    cases hc : host.convert s with
    | none => simp [mainRun, program, step, initSt, hd, hc]
    | some t => simp [mainRun, program, step, initSt, hd, hc]

theorem mainRun_glob (host : Host) (input : String) (g : Nat) :
    (mainRun host input g).st.glob = g := by
  simp [mainRun, program, step, initSt]

/-- C1: the claim says every derivation or conversion failure is reported
with a diagnostic and a non-zero exit status; the source checks neither call.
On a host whose derivation fails, the run still exits with status 0, the
trace records the failed derivation, and the whole output is the prompt
followed by the label and indeterminate text — no diagnostic anywhere. -/
theorem c1_failure_not_reported :
    (mainRun hostFailing "Contoso.DemoApp_8wekyb3d8bbwe" 0).exitCode = 0 ∧
    Event.deriveCall "Contoso.DemoApp_8wekyb3d8bbwe" false ∈
      (mainRun hostFailing "Contoso.DemoApp_8wekyb3d8bbwe" 0).st.trace ∧
    outputOf ((mainRun hostFailing "Contoso.DemoApp_8wekyb3d8bbwe" 0).st.trace) =
      promptText ++ ("SID: " ++ (indeterminateText ++ "\n")) := by
  have h1 : firstToken "Contoso.DemoApp_8wekyb3d8bbwe" = "Contoso.DemoApp_8wekyb3d8bbwe" := by
    decide
  refine ⟨rfl, ?_, ?_⟩
  · rw [mainRun_trace, h1]
    simp [hostFailing]
  · rw [mainRun_trace]
    simp [outputOf, hostFailing, append_empty_right]

/-- C2: whenever the derivation call acquires a security-identifier resource,
the run performs exactly one release operation on it and no handle is live at
exit — no leak and no double-release — for every outcome of the conversion
call. -/
theorem c2_sid_released_exactly_once (host : Host) (input : String) (g : Nat)
    (h : Nat) (hd : host.derive (firstToken input) = some h) :
    (mainRun host input g).st.res.sidFrees = 1 ∧
    (mainRun host input g).st.res.sidLive = 0 ∧
    ((mainRun host input g).st.trace).count Event.freeSidCall = 1 := by
  refine ⟨?_, ?_, ?_⟩
  · rw [mainRun_res]
  · rw [mainRun_res]
  · rw [mainRun_trace]
    simp [List.count_cons]

theorem c2_sid_released_exactly_once_witness :
    (mainRun hostOk "Contoso.DemoApp_8wekyb3d8bbwe" 0).st.res.sidFrees = 1 ∧
    (mainRun hostOk "Contoso.DemoApp_8wekyb3d8bbwe" 0).st.res.sidLive = 0 ∧
    ((mainRun hostOk "Contoso.DemoApp_8wekyb3d8bbwe" 0).st.trace).count
      Event.freeSidCall = 1 :=
  c2_sid_released_exactly_once hostOk "Contoso.DemoApp_8wekyb3d8bbwe" 0 29 (by decide)

/-- C3: every execution produces exactly this event sequence: prompt write,
read of the container name, derivation from that name, conversion, release of
the identifier resource, and only then the writes that emit the text. -/
theorem c3_steps_in_order (host : Host) (input : String) (g : Nat) :
    (mainRun host input g).st.trace =
    [Event.writeOut promptText,
     Event.readIn (firstToken input),
     Event.deriveCall (firstToken input) (host.derive (firstToken input)).isSome,
     Event.convertCall ((host.derive (firstToken input)).bind host.convert).isSome,
     Event.freeSidCall,
     Event.writeOut "SID: ",
     Event.writeOut (((host.derive (firstToken input)).bind host.convert).getD indeterminateText),
     Event.writeOut "\n"] :=
  mainRun_trace host input g

/-- C4 counterexample: the claim says the program writes exactly one line to
standard output, consisting of the label, the SID text and a terminator. On
the stub host the program also writes the prompt to the same standard output
stream, so the full output is not that single line and contains three line
terminators, not one. -/
theorem c4_not_exactly_one_line :
    outputOf ((mainRun hostOk "Contoso.DemoApp_8wekyb3d8bbwe" 0).st.trace) ≠
      "SID: " ++ ("S-1-15-2-1" ++ "\n") ∧
    newlineCount (outputOf ((mainRun hostOk "Contoso.DemoApp_8wekyb3d8bbwe" 0).st.trace)) = 3 := by
  decide

/-- C4 (amended): for every name whose derivation and conversion succeed on a
host producing canonical SID text, the output written after the release of
the identifier resource is exactly one line — the label, then the textual
identifier, then one line terminator — and the identifier starts with the
canonical S-1- head. -/
theorem c4_one_result_line (host : Host) (input : String) (g : Nat)
    (hcanon : Host.canonical host) (h : Nat) (t : String)
    (hd : host.derive (firstToken input) = some h)
    (hc : host.convert h = some t) :
    outputOf (afterFree ((mainRun host input g).st.trace)) = "SID: " ++ (t ++ "\n") ∧
    strHead "S-1-" t = true ∧
    newlineCount ("SID: " ++ (t ++ "\n")) = 1 := by
  obtain ⟨hpre, hnl⟩ := hcanon h t hc
  refine ⟨?_, hpre, newlineCount_sid_line t hnl⟩
  rw [mainRun_trace]
  simp [afterFree, outputOf, hd, hc, append_empty_right]

theorem c4_one_result_line_witness :
    outputOf (afterFree ((mainRun hostOk "Contoso.DemoApp_8wekyb3d8bbwe" 0).st.trace)) =
      "SID: " ++ ("S-1-15-2-1" ++ "\n") ∧
    strHead "S-1-" "S-1-15-2-1" = true ∧
    newlineCount ("SID: " ++ ("S-1-15-2-1" ++ "\n")) = 1 :=
  c4_one_result_line hostOk "Contoso.DemoApp_8wekyb3d8bbwe" 0
    (fun h t hc => by
      have hc2 : some "S-1-15-2-1" = some t := hc
      cases hc2
      exact ⟨by decide, by decide⟩)
    29 "S-1-15-2-1" (by decide) rfl

/-- C5: the run is a deterministic function of the host and the name read
from the input: two runs whose inputs hold the same name token produce the
same trace and the same output, whatever the ambient state. -/
theorem c5_deterministic (host : Host) (i1 i2 : String) (g1 g2 : Nat)
    (htok : firstToken i1 = firstToken i2) :
    (mainRun host i1 g1).st.trace = (mainRun host i2 g2).st.trace ∧
    outputOf ((mainRun host i1 g1).st.trace) =
      outputOf ((mainRun host i2 g2).st.trace) := by
  have ht : (mainRun host i1 g1).st.trace = (mainRun host i2 g2).st.trace := by
    rw [mainRun_trace, mainRun_trace, htok]
  exact ⟨ht, by rw [ht]⟩

theorem c5_deterministic_witness :
    (mainRun hostOk "Contoso.DemoApp_8wekyb3d8bbwe " 0).st.trace =
      (mainRun hostOk "  Contoso.DemoApp_8wekyb3d8bbwe\nrest" 1).st.trace ∧
    outputOf ((mainRun hostOk "Contoso.DemoApp_8wekyb3d8bbwe " 0).st.trace) =
      outputOf ((mainRun hostOk "  Contoso.DemoApp_8wekyb3d8bbwe\nrest" 1).st.trace) :=
  c5_deterministic hostOk "Contoso.DemoApp_8wekyb3d8bbwe " "  Contoso.DemoApp_8wekyb3d8bbwe\nrest"
    0 1 (by decide)

/-- C6: on a host whose naming rules reject the empty name, the conforming
resolver of spec §4.1 fails on the empty string with InvalidName and returns
no textual identifier. -/
theorem c6_empty_name_invalid (host : Host) (hempty : host.derive "" = none) :
    resolve host "" = Except.error ErrorKind.invalidName := by
  simp [resolve, hempty]

theorem c6_empty_name_invalid_witness :
    resolve hostOk "" = Except.error ErrorKind.invalidName :=
  c6_empty_name_invalid hostOk (by decide)

/-- C7 counterexample: the claim says the whole input line, interior
whitespace included, is the name passed to derivation. On input whose first
line is the two-word name, the name actually passed to the derivation call is
only the text before the first space. -/
theorem c7_reads_token_not_line :
    derivedName ((mainRun hostOk "My App\n" 0).st.trace) = some "My" ∧
    firstLine "My App\n" = "My App" ∧
    ("My" : String) ≠ "My App" := by
  decide

/-- C7 (amended): the program writes the prompt first, then reads one
whitespace-delimited token from standard input — leading whitespace skipped,
reading stopped at the first whitespace — and that token is exactly the name
passed to the derivation call. -/
theorem c7_prompt_then_token_read (host : Host) (input : String) (g : Nat) :
    ((mainRun host input g).st.trace).take 2 =
      [Event.writeOut promptText, Event.readIn (firstToken input)] ∧
    derivedName ((mainRun host input g).st.trace) = some (firstToken input) := by
  rw [mainRun_trace]
  exact ⟨rfl, rfl⟩

/-- C8: no global or process-wide state is read or mutated: the ambient
state is returned unchanged, the trace does not depend on it, and the only
resource effect on the identifier handle is transient — zero handles live at
exit after the single release. -/
theorem c8_no_global_state (host : Host) (input : String) (g g2 : Nat) :
    (mainRun host input g).st.glob = g ∧
    (mainRun host input g).st.trace = (mainRun host input g2).st.trace ∧
    (mainRun host input g).st.res.sidLive = 0 ∧
    (mainRun host input g).st.res.sidFrees = 1 := by
  refine ⟨mainRun_glob host input g, ?_, ?_, ?_⟩
  · rw [mainRun_trace, mainRun_trace]
  · rw [mainRun_res]
  · rw [mainRun_res]

/-- C9: every completed execution exits with status 0, and the control flow
never depends on the statuses of the two host calls: the sequence of event
kinds is the same for every host, failing or not. -/
theorem c9_exit_zero_regardless (host host2 : Host) (input : String) (g g2 : Nat) :
    (mainRun host input g).exitCode = 0 ∧
    ((mainRun host input g).st.trace).map kindOf =
      ((mainRun host2 input g2).st.trace).map kindOf := by
  refine ⟨rfl, ?_⟩
  rw [mainRun_trace, mainRun_trace]
  rfl

/-- C10: on every path, the string buffer allocated by the conversion call is
never released: zero release operations on it, the only release event in the
trace is the one for the identifier handle, and the buffer is still live at
exit whenever the conversion succeeded. -/
theorem c10_string_buffer_never_freed (host : Host) (input : String) (g : Nat) :
    (mainRun host input g).st.res.strFrees = 0 ∧
    ((mainRun host input g).st.trace).filter isFree = [Event.freeSidCall] ∧
    (mainRun host input g).st.res.strLive =
      cond ((host.derive (firstToken input)).bind host.convert).isSome 1 0 := by
  refine ⟨?_, ?_, ?_⟩
  · rw [mainRun_res]
  · rw [mainRun_trace]
    rfl
  · rw [mainRun_res]

end SidTool

